import Mathlib

/-!
Verification of the moto tutorial notebook (`src/moto.ipynb`).

The notebook defines a tiny upload helper `some_upload`, a container-setup
helper `bucket`, and a test `test_upload`, all operating against an
ephemeral in-memory storage backend supplied by the external moto library.
The backend itself is not part of this repository, so its four capabilities
(create-container, put-object, list-objects, get-object) are modelled from
the specification's data model and external-interface sections.  The
repository's own functions (`some_upload`, `bucket`, `test_upload`) are
translated directly from the notebook source.
-/

namespace MotoTutorial

/-- Raw byte content of an object: a list of byte values. -/
abbrev Bytes := List Nat

/-- Lookup in an association list keyed by strings: first binding wins. -/
def alookup {α : Type} (k : String) : List (String × α) → Option α
  | [] => none
  | p :: rest => if p.1 = k then some p.2 else alookup k rest

/-- Update (or append) the binding for `k` in an association list. -/
def aupdate {α : Type} (k : String) (v : α) : List (String × α) → List (String × α)
  | [] => [(k, v)]
  | p :: rest => if p.1 = k then (k, v) :: rest else p :: aupdate k v rest

/-- Modelled from the spec: the state of the mocked storage session.  The
spec's data model has containers identified by unique names, each holding
objects identified by keys and carrying raw byte content.  Metadata other
than key and content plays no role in the claims and is omitted. -/
structure S3Backend where
  buckets : List (String × List (String × Bytes))

/-- Modelled from the spec: `create-container(name) → acknowledgement`.
Creates an empty container under `name`; an already existing container is
left as it is (names are unique within a session). -/
def create_bucket (st : S3Backend) (name : String) : S3Backend :=
  match alookup name st.buckets with
  | some _ => st
  | none => ⟨st.buckets ++ [(name, [])]⟩

/-- Modelled from the spec: `put-object(container, key, body)`.  Stores the
body under the key, overwriting any existing object at that key; fails
(`none`) when the container does not exist, mirroring the external client's
error for invalid operations. -/
def put_object (st : S3Backend) (b k : String) (body : Bytes) : Option S3Backend :=
  match alookup b st.buckets with
  | none => none
  | some objs => some ⟨aupdate b (aupdate k body objs) st.buckets⟩

/-- Modelled from the spec: `get-object(container, key)` returns the stored
body; fails (`none`) when the container or the key does not exist. -/
def get_object (st : S3Backend) (b k : String) : Option Bytes :=
  match alookup b st.buckets with
  | none => none
  | some objs => alookup k objs

/-- Modelled from the spec: `list-objects(container)` returns the keys of
all currently stored objects; fails (`none`) when the container does not
exist. -/
def list_objects (st : S3Backend) (b : String) : Option (List String) :=
  match alookup b st.buckets with
  | none => none
  | some objs => some (objs.map Prod.fst)

/-- Modelled from the spec: once the mocked session ends every container
and object is discarded; a newly started mocked session therefore begins
from this empty backend. -/
def freshSession : S3Backend := ⟨[]⟩

/-- From `src/moto.ipynb`: `some_upload(data, bucket, key)` obtains a
client for the active session and issues a single `put_object` call; any
error of the client is surfaced unchanged. -/
def some_upload (data : Bytes) (bucket key : String) (st : S3Backend) : Option S3Backend :=
  put_object st bucket key data

/-- From `src/moto.ipynb`: the `bucket` helper creates a container with the
fixed name `"test_bucket"` through the given client and returns that name.
Its `@mock_s3` decorator overlaps the caller's mocked context, and moto
shares one backend between overlapping contexts, which the embedding
renders by threading the single session state through the helper. -/
def bucket (st : S3Backend) : S3Backend × String :=
  let bucket_name := "test_bucket"
  (create_bucket st bucket_name, bucket_name)

/-- Byte view of a string, used to embed the notebook's byte literals. -/
def strBytes (s : String) : Bytes := s.data.map Char.toNat

/-- From `src/moto.ipynb`: `test_upload` starts a fresh mocked session,
creates the test container, uploads a known payload, then checks that the
listing has exactly one entry and that the retrieved body equals the
payload.  `none` stands for a client error, `some false` for an assertion
failure. -/
def test_upload : Option Bool :=
  let st0 := freshSession
  let r := bucket st0
  let data := strBytes "Made up file contents because I have no imagination."
  let key := "somewhere/something.txt"
  match some_upload data r.2 key r.1 with
  | none => none
  | some st2 =>
    match list_objects st2 r.2 with
    | none => none
    | some objs =>
      match get_object st2 r.2 key with
      | none => none
      | some body => some (objs.length == 1 && body == data)

theorem alookup_aupdate_self {α : Type} (k : String) (v : α) (l : List (String × α)) :
    alookup k (aupdate k v l) = some v := by
  induction l with
  | nil => simp [aupdate, alookup]
  | cons p rest ih =>
    by_cases h : p.1 = k
    · simp [aupdate, alookup, h]
    · simp [aupdate, alookup, h, ih]

theorem alookup_aupdate_ne {α : Type} (k k' : String) (v : α) (l : List (String × α))
    (h : k' ≠ k) : alookup k' (aupdate k v l) = alookup k' l := by
  have hkk : ¬ (k = k') := fun e => h e.symm
  induction l with
  | nil => simp [aupdate, alookup, hkk]
  | cons p rest ih =>
    by_cases hp : p.1 = k
    · simp [aupdate, alookup, hp, hkk]
    · simp [aupdate, alookup, hp, ih]

theorem alookup_append_single {α : Type} (k : String) (v : α) (l : List (String × α))
    (h : alookup k l = none) : alookup k (l ++ [(k, v)]) = some v := by
  induction l with
  | nil => simp [alookup]
  | cons p rest ih =>
    by_cases hp : p.1 = k
    · simp [alookup, hp] at h
    · simp [alookup, hp] at h ⊢
      exact ih h

theorem alookup_create_bucket_self (st : S3Backend) (name : String) :
    ∃ objs, alookup name (create_bucket st name).buckets = some objs := by
  unfold create_bucket
  cases h : alookup name st.buckets with
  | none => exact ⟨[], alookup_append_single name [] st.buckets h⟩
  | some objs => exact ⟨objs, h⟩

theorem alookup_create_bucket_fresh (st : S3Backend) (name : String)
    (h : alookup name st.buckets = none) :
    alookup name (create_bucket st name).buckets = some [] := by
  unfold create_bucket
  rw [h]
  exact alookup_append_single name [] st.buckets h

/-- Shared helper: uploading to an existing container and then retrieving
the same key yields exactly the uploaded content. -/
theorem upload_then_get (C : Bytes) (B K : String) (st : S3Backend)
    (objs : List (String × Bytes)) (h : alookup B st.buckets = some objs) :
    (some_upload C B K st).bind (fun st' => get_object st' B K) = some C := by
  simp [some_upload, put_object, h, Option.bind, get_object,
    alookup_aupdate_self]

/-- Sanity check mirroring the notebook's final cell: the embedded test
runs without a client error and all its assertions hold. -/
theorem test_upload_passes : test_upload = some true := by decide

/-- Claim C1: for every byte content `C`, container name `B` and key `K`,
with `B` existing in the active mocked session, `some_upload C B K` followed
by `get_object` at `(B, K)` yields exactly `C`. -/
theorem C1_upload_get_roundtrip (C : Bytes) (B K : String) (st : S3Backend)
    (objs : List (String × Bytes)) (h : alookup B st.buckets = some objs) :
    (some_upload C B K st).bind (fun st' => get_object st' B K) = some C :=
  upload_then_get C B K st objs h

theorem C1_upload_get_roundtrip_witness :
    (some_upload [7, 8] "b" "k" ⟨[("b", [])]⟩).bind
      (fun st' => get_object st' "b" "k") = some [7, 8] :=
  C1_upload_get_roundtrip [7, 8] "b" "k" ⟨[("b", [])]⟩ [] rfl

/-- Claim C2: after exactly one `some_upload C B K` on a freshly created
container `B` (no prior objects), listing `B` returns exactly one entry and
that entry's key is `K`. -/
theorem C2_single_entry_listing (C : Bytes) (B K : String) (st : S3Backend)
    (h : alookup B st.buckets = none) :
    (some_upload C B K (create_bucket st B)).bind
      (fun st' => list_objects st' B) = some [K] := by
  have hb := alookup_create_bucket_fresh st B h
  simp [some_upload, put_object, hb, Option.bind, list_objects,
    alookup_aupdate_self, aupdate]

theorem C2_single_entry_listing_witness :
    (some_upload [1] "b" "k" (create_bucket freshSession "b")).bind
      (fun st' => list_objects st' "b") = some ["k"] :=
  C2_single_entry_listing [1] "b" "k" freshSession rfl

/-- Claim C3: uploading `C1` then `C2` to the same existing `(B, K)` and
retrieving yields exactly `C2`: the second upload overwrites the first. -/
theorem C3_overwrite (C1 C2 : Bytes) (B K : String) (st : S3Backend)
    (objs : List (String × Bytes)) (h : alookup B st.buckets = some objs)
    (hne : C1 ≠ C2) :
    (some_upload C1 B K st).bind (fun st1 =>
      (some_upload C2 B K st1).bind (fun st2 => get_object st2 B K))
      = some C2 := by
  simp [some_upload, put_object, h, Option.bind, alookup_aupdate_self,
    get_object]

theorem C3_overwrite_witness :
    (some_upload [1] "b" "k" ⟨[("b", [])]⟩).bind (fun st1 =>
      (some_upload [2] "b" "k" st1).bind (fun st2 => get_object st2 "b" "k"))
      = some [2] :=
  C3_overwrite [1] [2] "b" "k" ⟨[("b", [])]⟩ [] rfl (by decide)

/-- Claim C4: listing or retrieving from a container that does not exist in
the active mocked session fails rather than returning an empty or successful
result. -/
theorem C4_missing_bucket_fails (B K : String) (st : S3Backend)
    (h : alookup B st.buckets = none) :
    list_objects st B = none ∧ get_object st B K = none := by
  constructor <;> simp [list_objects, get_object, h]

theorem C4_missing_bucket_fails_witness :
    list_objects freshSession "b" = none ∧
      get_object freshSession "b" "k" = none :=
  C4_missing_bucket_fails "b" "k" freshSession rfl

/-- Claim C5: `some_upload` is a bare pass-through to the client's
`put_object`: its result is the client's result unchanged (no catching,
retrying or translating), and when the container does not exist it surfaces
the client's error. -/
theorem C5_error_surfaced (C : Bytes) (B K : String) (st : S3Backend)
    (h : alookup B st.buckets = none) :
    some_upload C B K st = put_object st B K C ∧
      some_upload C B K st = none :=
  ⟨rfl, by simp [some_upload, put_object, h]⟩

theorem C5_error_surfaced_witness :
    some_upload [1] "b" "k" freshSession = put_object freshSession "b" "k" [1] ∧
      some_upload [1] "b" "k" freshSession = none :=
  C5_error_surfaced [1] "b" "k" freshSession rfl

/-- Claim C6: the `bucket` helper creates a container with the fixed name
`"test_bucket"` through the given client and returns that same name. -/
theorem C6_bucket_creates_fixed_name (st : S3Backend) :
    (bucket st).2 = "test_bucket" ∧
      (bucket st).1 = create_bucket st "test_bucket" ∧
      ∃ objs, alookup "test_bucket" ((bucket st).1).buckets = some objs :=
  ⟨rfl, rfl, alookup_create_bucket_self st "test_bucket"⟩

/-- Claim C7: once the mocked session is stopped, all containers and objects
are discarded: a later session starts from the empty backend, in which no
listing or retrieval can observe them. -/
theorem C7_session_state_discarded (B K : String) :
    list_objects freshSession B = none ∧ get_object freshSession B K = none := by
  constructor <;> simp [freshSession, list_objects, get_object, alookup]

/-- Claim C8: `some_upload C B K` modifies only the object at `(B, K)`;
every retrieval at any other `(B', K')` is unchanged by the call. -/
theorem C8_upload_frame (C : Bytes) (B K B' K' : String) (st st' : S3Backend)
    (hup : some_upload C B K st = some st') (hdiff : B' ≠ B ∨ K' ≠ K) :
    get_object st' B' K' = get_object st B' K' := by
  unfold some_upload put_object at hup
  cases hb : alookup B st.buckets with
  | none => rw [hb] at hup; exact absurd hup (by simp)
  | some objs =>
    rw [hb] at hup
    have h2 := Option.some.inj hup
    subst h2
    by_cases hB : B' = B
    · subst hB
      have hK : K' ≠ K := hdiff.resolve_left (fun hc => hc rfl)
      have e1 : alookup B' (aupdate B' (aupdate K C objs) st.buckets)
          = some (aupdate K C objs) := alookup_aupdate_self B' _ _
      simp [get_object, e1, hb, alookup_aupdate_ne K K' C objs hK]
    · simp [get_object,
        alookup_aupdate_ne B B' (aupdate K C objs) st.buckets hB]

theorem C8_upload_frame_witness :
    get_object ⟨[("b", [("k2", [9]), ("k", [1])])]⟩ "b" "k2"
      = get_object ⟨[("b", [("k2", [9])])]⟩ "b" "k2" :=
  C8_upload_frame [1] "b" "k" "b" "k2" ⟨[("b", [("k2", [9])])]⟩
    ⟨[("b", [("k2", [9]), ("k", [1])])]⟩ rfl (Or.inr (by decide))

/-- Claim C9: the `bucket` helper's mocked context overlaps the caller's and
the two share one backend, so the container `"test_bucket"` it creates is
still visible to the caller's client after the helper returns. -/
theorem C9_bucket_visible_to_caller (st : S3Backend) :
    ∃ keys, list_objects (bucket st).1 "test_bucket" = some keys := by
  obtain ⟨objs, h⟩ := alookup_create_bucket_self st "test_bucket"
  exact ⟨objs.map Prod.fst, by simp [bucket, list_objects, h]⟩

/-- Claim C10: `some_upload` accepts the empty byte content: uploading the
empty content to an existing `(B, K)` succeeds and a subsequent retrieval of
`(B, K)` yields the empty content. -/
theorem C10_empty_content_roundtrip (B K : String) (st : S3Backend)
    (objs : List (String × Bytes)) (h : alookup B st.buckets = some objs)
    (hk : (alookup K objs).isSome = true) :
    (some_upload [] B K st).bind (fun st' => get_object st' B K)
      = some ([] : Bytes) :=
  upload_then_get [] B K st objs h

theorem C10_empty_content_roundtrip_witness :
    (some_upload [] "b" "k" ⟨[("b", [("k", [3])])]⟩).bind
      (fun st' => get_object st' "b" "k") = some ([] : Bytes) :=
  C10_empty_content_roundtrip "b" "k" ⟨[("b", [("k", [3])])]⟩
    [("k", [3])] rfl rfl

end MotoTutorial
